import Mathlib

/-!
Verification of the wit-ai client module (`src/wit-ai.js`).

The module exports three operations — `speech`, `stream` and `text` — each of
which builds an HTTP request-options record, fires one request through the
`request` library, and settles a promise from the callback `(error, res, body)`:
reject with the transport error if present, otherwise `JSON.parse` the body,
reject with a combined `Error` when the parsed value has both an `error` and a
`code` field, and resolve with the parsed value otherwise.

The embedding below models:
  * parsed JSON values (`Json`),
  * JavaScript property access as the code performs it (`Json.getProp`),
    including the `TypeError` raised when the parsed value is `null`,
  * template-literal stringification (`Json.jsToString`) used to build the
    combined error message,
  * the request-options record each operation constructs (`RequestOptions`),
  * the callback each operation installs, as a function from the transport
    error (if any) and the result of `JSON.parse` (if it succeeded) to the
    observable outcome (`HandlerOutcome`): `JSON.parse(body)` of the source is
    abstracted by an `Option Json` argument, `some v` when the body parses to
    `v` and `none` when `JSON.parse` throws.

An exception thrown inside the `request` callback is *not* caught by the
`new Promise` executor (the executor has already returned), so it escapes and
the promise never settles; the embedding records this as the outcome
`HandlerOutcome.thrown`.
-/

set_option autoImplicit false

namespace WitAi

/-- A parsed JSON value, the possible results of `JSON.parse`.  Numbers are
modelled as integers; no claim depends on fractional numeric values.  Object
fields are an association list; `JSON.parse` yields at most one binding per
key, and lookup takes the first binding. -/
inductive Json where
  | null
  | bool (b : Bool)
  | num (n : Int)
  | str (s : String)
  | arr (elems : List Json)
  | obj (fields : List (String × Json))

/-- Field lookup in an object's field list: the first binding for the key. -/
def lookupField (fields : List (String × Json)) (key : String) : Option Json :=
  (fields.find? (fun p => p.1 == key)).map Prod.snd

/-- JavaScript property access `v[key]`, as the source performs it on a value
returned by `JSON.parse`.  On `null` it raises a `TypeError`
(`Except.error ()`); on an object it returns the field's value when bound and
`undefined` (`none`) otherwise; on any other value (booleans, numbers,
strings, arrays) the accessed properties used here are absent, so it returns
`undefined`. -/
def Json.getProp : Json → String → Except Unit (Option Json)
  | Json.null, _ => Except.error ()
  | Json.obj fields, key => Except.ok (lookupField fields key)
  | _, _ => Except.ok none

mutual

/-- Template-literal stringification of a JSON value, as JavaScript's
`String(v)` behaves on values produced by `JSON.parse`. -/
def Json.jsToString : Json → String
  | Json.null => "null"
  | Json.bool b => cond b "true" "false"
  | Json.num n => toString n
  | Json.str s => s
  | Json.arr elems => Json.jsJoinElems elems
  | Json.obj _ => "[object Object]"

/-- Array stringification: elements joined by commas. -/
def Json.jsJoinElems : List Json → String
  | [] => ""
  | [j] => Json.jsElemToString j
  | j :: rest => Json.jsElemToString j ++ "," ++ Json.jsJoinElems rest

/-- A `null` element stringifies to the empty string inside `Array.join`. -/
def Json.jsElemToString : Json → String
  | Json.null => ""
  | j => Json.jsToString j

end

/-- Stringification of a possibly-undefined value inside a template literal:
`undefined` prints as the word `undefined`. -/
def templateVal : Option Json → String
  | none => "undefined"
  | some j => j.jsToString

/-- The source's `isError`:
`res => res.error !== undefined && res.code !== undefined`.
`&&` short-circuits, and property access on `null` throws, which the
`Except` layer records. -/
def isError (res : Json) : Except Unit Bool :=
  (res.getProp "error").bind (fun e =>
    if e.isNone then Except.ok false
    else (res.getProp "code").map (fun c => c.isSome))

/-- The message of the `Error` the handler constructs for an API error:
the template literal built from `response.code` and `response.error`. -/
def apiErrorMessage (response : Json) : String :=
  templateVal ((response.getProp "code").toOption.join) ++ ": " ++
    templateVal ((response.getProp "error").toOption.join)

/-- The body of an outgoing request: absent (for `text`), a fixed binary
buffer of audio bytes (for `speech`), or a readable byte stream, identified
opaquely by a handle since the client code never inspects it (for `stream`). -/
inductive ReqBody where
  | none
  | buf (bin : List Nat)
  | stream (handle : Nat)
deriving DecidableEq, Repr

/-- The request-options record passed to the `request` library: URL, HTTP
method, headers, query-string parameters and body. -/
structure RequestOptions where
  url : String
  method : String
  headers : List (String × String)
  qs : List (String × Json)
  body : ReqBody

/-- The observable outcome of one invocation, as a function of the transport
result: the promise rejects with the transport error, rejects with an API
`Error` message, resolves with the parsed JSON, or — when the callback itself
throws (unparseable body, or property access on `null`) — never settles
because the exception escapes the already-returned executor. -/
inductive HandlerOutcome where
  | rejectedTransport (e : Json)
  | rejectedApi (msg : String)
  | resolved (v : Json)
  | thrown

/-- Whether the outcome settles the promise (a rejection or a resolution);
`thrown` leaves it unsettled. -/
def HandlerOutcome.settles : HandlerOutcome → Bool
  | HandlerOutcome.thrown => false
  | _ => true

/-- One modelled invocation: the options record the operation builds and the
callback it installs, as a function of the transport error (if any) and the
result of `JSON.parse` on the body. -/
structure Call where
  options : RequestOptions
  handle : Option Json → Option Json → HandlerOutcome

/-- The source's `speech`: POST the audio buffer to the speech endpoint and
settle from the response. -/
def speech (token : String) (bin : List Nat) (context : Json) (msg_id : Json)
    (thread_id : Json) (n : Json) : Call :=
  { options :=
      { url := "https://api.wit.ai/speech"
        method := "POST"
        headers :=
          [("Content-Type", "audio/wav"),
           ("Authorization", "Bearer " ++ token),
           ("Accept", "application/json")]
        qs := [("context", context), ("msg_id", msg_id), ("n", n)]
        body := ReqBody.buf bin }
    handle := fun error parsed =>
      match error with
      | some e => HandlerOutcome.rejectedTransport e
      | none =>
        match parsed with
        | none => HandlerOutcome.thrown
        | some response =>
          match isError response with
          | Except.error _ => HandlerOutcome.thrown
          | Except.ok true => HandlerOutcome.rejectedApi (apiErrorMessage response)
          | Except.ok false => HandlerOutcome.resolved response }

/-- The source's `stream`: like `speech` but the body is a readable byte
stream and the headers mark the transfer as chunked. -/
def stream (token : String) (audio : Nat) (context : Json) (msg_id : Json)
    (thread_id : Json) (n : Json) : Call :=
  { options :=
      { url := "https://api.wit.ai/speech"
        method := "POST"
        headers :=
          [("Content-Type", "audio/wav"),
           ("Transfer-encoding", "chunked"),
           ("Authorization", "Bearer " ++ token),
           ("Accept", "application/json")]
        qs := [("context", context), ("msg_id", msg_id), ("n", n)]
        body := ReqBody.stream audio }
    handle := fun error parsed =>
      match error with
      | some e => HandlerOutcome.rejectedTransport e
      | none =>
        match parsed with
        | none => HandlerOutcome.thrown
        | some response =>
          match isError response with
          | Except.error _ => HandlerOutcome.thrown
          | Except.ok true => HandlerOutcome.rejectedApi (apiErrorMessage response)
          | Except.ok false => HandlerOutcome.resolved response }

/-- The source's `text`: GET the message endpoint with the query and options
in the query string and settle from the response. -/
def text (token : String) (q : Json) (context : Json) (msg_id : Json)
    (thread_id : Json) (n : Json) (verbose : Json) : Call :=
  { options :=
      { url := "https://api.wit.ai/message"
        method := "GET"
        headers :=
          [("Authorization", "Bearer " ++ token),
           ("Accept", "application/json")]
        qs := [("q", q), ("context", context), ("msg_id", msg_id), ("n", n),
               ("verbose", verbose)]
        body := ReqBody.none }
    handle := fun error parsed =>
      match error with
      | some e => HandlerOutcome.rejectedTransport e
      | none =>
        match parsed with
        | none => HandlerOutcome.thrown
        | some response =>
          match isError response with
          | Except.error _ => HandlerOutcome.thrown
          | Except.ok true => HandlerOutcome.rejectedApi (apiErrorMessage response)
          | Except.ok false => HandlerOutcome.resolved response }

/-! Helper lemmas shared by the claim theorems. -/

/-- On an object, `isError` computes presence of both fields, whatever the
field values are. -/
theorem isError_obj (fields : List (String × Json)) :
    isError (Json.obj fields) =
      Except.ok ((lookupField fields "error").isSome &&
        (lookupField fields "code").isSome) := by
  cases h : lookupField fields "error" <;>
    simp [isError, Json.getProp, h, Except.bind, Except.map]

/-- `isError` raises a `TypeError` exactly on the parsed value `null`. -/
theorem isError_eq_error_iff (res : Json) :
    isError res = Except.error () ↔ res = Json.null := by
  cases res <;>
    simp [isError, Json.getProp, Except.bind, Except.map] <;>
    split <;> simp

/-- On an object carrying both fields, the combined message is the
stringified code, a colon and a space, then the stringified error. -/
theorem apiErrorMessage_obj (fields : List (String × Json)) (c e : Json)
    (hc : lookupField fields "code" = some c)
    (he : lookupField fields "error" = some e) :
    apiErrorMessage (Json.obj fields) = c.jsToString ++ ": " ++ e.jsToString := by
  simp [apiErrorMessage, Json.getProp, templateVal, hc, he, Except.toOption,
    Option.bind]

/-! Claim theorems. -/

/-- C1: for every parsed JSON response carrying both a string `code` field
and a string `error` field, each of `speech`, `stream` and `text` rejects
with an `Error` whose message is the code, a colon and a space, then the
error message — so the message contains both fields verbatim. -/
theorem api_error_rejection_message
    (token : String) (bin : List Nat) (audio : Nat)
    (q context msg_id thread_id n verbose : Json)
    (fields : List (String × Json)) (codeS errS : String)
    (hc : lookupField fields "code" = some (Json.str codeS))
    (he : lookupField fields "error" = some (Json.str errS)) :
    (speech token bin context msg_id thread_id n).handle none
        (some (Json.obj fields)) =
      HandlerOutcome.rejectedApi (codeS ++ ": " ++ errS) ∧
    (stream token audio context msg_id thread_id n).handle none
        (some (Json.obj fields)) =
      HandlerOutcome.rejectedApi (codeS ++ ": " ++ errS) ∧
    (text token q context msg_id thread_id n verbose).handle none
        (some (Json.obj fields)) =
      HandlerOutcome.rejectedApi (codeS ++ ": " ++ errS) := by
  refine ⟨?_, ?_, ?_⟩ <;>
    simp [speech, stream, text, isError_obj, hc, he,
      apiErrorMessage_obj fields _ _ hc he, Json.jsToString]

/-- C1 witness: the stub response with code `bad-auth` and error
`invalid token` makes `text` reject with the message
`bad-auth: invalid token`. -/
theorem api_error_rejection_message_witness :
    (text "tok" (Json.str "hi") Json.null Json.null Json.null Json.null
        Json.null).handle none
        (some (Json.obj
          [("code", Json.str "bad-auth"), ("error", Json.str "invalid token")])) =
      HandlerOutcome.rejectedApi "bad-auth: invalid token" := by
  have h := (api_error_rejection_message "tok" [] 0 (Json.str "hi") Json.null
    Json.null Json.null Json.null Json.null
    [("code", Json.str "bad-auth"), ("error", Json.str "invalid token")]
    "bad-auth" "invalid token" rfl rfl).2.2
  simpa using h

/-- C2 counterexample: with no transport error and a response body that is
not well-formed JSON, the callback installed by each of `speech`, `stream`
and `text` throws (`JSON.parse` raises and nothing catches it), so the
promise neither rejects nor resolves — contradicting the claim that every
failure, including a non-JSON body, is surfaced as a rejected result. -/
theorem unparseable_body_leaves_promise_unsettled :
    ((speech "tok" [] Json.null Json.null Json.null Json.null).handle
        none none).settles = false ∧
    ((stream "tok" 0 Json.null Json.null Json.null Json.null).handle
        none none).settles = false ∧
    ((text "tok" (Json.str "hi") Json.null Json.null Json.null Json.null
        Json.null).handle none none).settles = false :=
  ⟨rfl, rfl, rfl⟩

/-- C2 (amended): for every invocation of `speech`, `stream` or `text`, the
outcome is one of four — a rejection with the transport error propagated
as-is, a rejection with the combined API error, a resolution with the parsed
JSON, or an escaped exception that leaves the promise unsettled — and the
escaped exception occurs exactly when there is no transport error and the
body either fails to parse as JSON or parses to the JSON value `null`. -/
theorem outcome_classification
    (token : String) (bin : List Nat) (audio : Nat)
    (q context msg_id thread_id n verbose : Json)
    (error parsed : Option Json) :
    ((speech token bin context msg_id thread_id n).handle error parsed =
        HandlerOutcome.thrown ↔
      error = none ∧ (parsed = none ∨ parsed = some Json.null)) ∧
    ((stream token audio context msg_id thread_id n).handle error parsed =
        HandlerOutcome.thrown ↔
      error = none ∧ (parsed = none ∨ parsed = some Json.null)) ∧
    ((text token q context msg_id thread_id n verbose).handle error parsed =
        HandlerOutcome.thrown ↔
      error = none ∧ (parsed = none ∨ parsed = some Json.null)) := by
  refine ⟨?_, ?_, ?_⟩ <;>
  · cases error with
    | some e => simp [speech, stream, text]
    | none =>
      cases parsed with
      | none => simp [speech, stream, text]
      | some response =>
        rcases hr : isError response with u | b
        · rw [isError_eq_error_iff response] at hr
          simp [speech, stream, text, isError, hr, Json.getProp, Except.bind]
        · have hnn : response ≠ Json.null := by
            intro hn
            rw [(isError_eq_error_iff response).mpr hn] at hr
            exact Except.noConfusion hr
          cases b <;> simp [speech, stream, text, hr, hnn]

/-- C3: every well-formed JSON object response that lacks the `error` field
or lacks the `code` field makes each of `speech`, `stream` and `text`
resolve with the parsed object itself, unchanged. -/
theorem non_error_response_resolves_unchanged
    (token : String) (bin : List Nat) (audio : Nat)
    (q context msg_id thread_id n verbose : Json)
    (fields : List (String × Json))
    (h : lookupField fields "error" = none ∨ lookupField fields "code" = none) :
    (speech token bin context msg_id thread_id n).handle none
        (some (Json.obj fields)) =
      HandlerOutcome.resolved (Json.obj fields) ∧
    (stream token audio context msg_id thread_id n).handle none
        (some (Json.obj fields)) =
      HandlerOutcome.resolved (Json.obj fields) ∧
    (text token q context msg_id thread_id n verbose).handle none
        (some (Json.obj fields)) =
      HandlerOutcome.resolved (Json.obj fields) := by
  rcases h with h | h <;>
    exact ⟨by simp [speech, isError_obj, h], by simp [stream, isError_obj, h],
      by simp [text, isError_obj, h]⟩

/-- C3 witness: a concrete non-error response resolves unchanged through
`text`. -/
theorem non_error_response_resolves_unchanged_witness :
    (text "tok" (Json.str "hi") Json.null Json.null Json.null Json.null
        Json.null).handle none
        (some (Json.obj [("intent", Json.str "greeting")])) =
      HandlerOutcome.resolved (Json.obj [("intent", Json.str "greeting")]) :=
  (non_error_response_resolves_unchanged "tok" [] 0 (Json.str "hi") Json.null
    Json.null Json.null Json.null Json.null
    [("intent", Json.str "greeting")] (Or.inl rfl)).2.2

/-- C4: a transport-level failure makes each of `speech`, `stream` and `text`
reject with the underlying error value itself, whatever the response body —
before and instead of any JSON parsing or API-error detection. -/
theorem transport_error_propagated_as_is
    (token : String) (bin : List Nat) (audio : Nat)
    (q context msg_id thread_id n verbose : Json)
    (e : Json) (parsed : Option Json) :
    (speech token bin context msg_id thread_id n).handle (some e) parsed =
      HandlerOutcome.rejectedTransport e ∧
    (stream token audio context msg_id thread_id n).handle (some e) parsed =
      HandlerOutcome.rejectedTransport e ∧
    (text token q context msg_id thread_id n verbose).handle (some e) parsed =
      HandlerOutcome.rejectedTransport e :=
  ⟨rfl, rfl, rfl⟩

/-- C5 counterexample: a response whose `error` and `code` fields hold
booleans, not strings, is nevertheless classified as an API error and
rejected — `isError` tests only that the fields are defined, contradicting
the claim that non-string values are not an API error. -/
theorem nonstring_fields_classified_as_api_error :
    isError (Json.obj [("error", Json.bool true), ("code", Json.bool false)]) =
      Except.ok true ∧
    (speech "tok" [] Json.null Json.null Json.null Json.null).handle none
        (some (Json.obj [("error", Json.bool true), ("code", Json.bool false)])) =
      HandlerOutcome.rejectedApi "false: true" := by
  refine ⟨rfl, ?_⟩
  simp [speech, isError, Json.getProp, lookupField, apiErrorMessage, templateVal,
    Json.jsToString, Except.bind, Except.map, Except.toOption, Option.bind]

/-- C5 (amended): a successfully parsed JSON object response is classified
as an API error, and hence rejected rather than resolved, if and only if it
contains both an `error` field and a `code` field, whatever the values of
those fields; a response missing either field is resolved. -/
theorem api_error_classification
    (token : String) (bin : List Nat) (audio : Nat)
    (q context msg_id thread_id n verbose : Json)
    (fields : List (String × Json)) :
    (isError (Json.obj fields) = Except.ok true ↔
      (lookupField fields "error").isSome ∧ (lookupField fields "code").isSome) ∧
    (speech token bin context msg_id thread_id n).handle none
        (some (Json.obj fields)) =
      (if (lookupField fields "error").isSome && (lookupField fields "code").isSome
        then HandlerOutcome.rejectedApi (apiErrorMessage (Json.obj fields))
        else HandlerOutcome.resolved (Json.obj fields)) ∧
    (stream token audio context msg_id thread_id n).handle none
        (some (Json.obj fields)) =
      (if (lookupField fields "error").isSome && (lookupField fields "code").isSome
        then HandlerOutcome.rejectedApi (apiErrorMessage (Json.obj fields))
        else HandlerOutcome.resolved (Json.obj fields)) ∧
    (text token q context msg_id thread_id n verbose).handle none
        (some (Json.obj fields)) =
      (if (lookupField fields "error").isSome && (lookupField fields "code").isSome
        then HandlerOutcome.rejectedApi (apiErrorMessage (Json.obj fields))
        else HandlerOutcome.resolved (Json.obj fields)) := by
  cases he : (lookupField fields "error").isSome <;>
    cases hc : (lookupField fields "code").isSome <;>
    refine ⟨?_, ?_, ?_, ?_⟩ <;>
    simp [speech, stream, text, isError_obj, he, hc]

/-- C6: `text` issues a GET to the message endpoint whose query string
carries exactly the parameters `q`, `context`, `msg_id`, `n` and `verbose`;
`speech` and `stream` issue POSTs to the speech endpoint whose body is the
audio buffer or stream, and their query strings — exactly `context`,
`msg_id` and `n` — never contain the audio, being identical for any two
audio arguments. -/
theorem request_shapes
    (token : String) (bin bin2 : List Nat) (audio audio2 : Nat)
    (q context msg_id thread_id n verbose : Json) :
    (text token q context msg_id thread_id n verbose).options.method = "GET" ∧
    (text token q context msg_id thread_id n verbose).options.url =
      "https://api.wit.ai/message" ∧
    (text token q context msg_id thread_id n verbose).options.qs =
      [("q", q), ("context", context), ("msg_id", msg_id), ("n", n),
       ("verbose", verbose)] ∧
    (speech token bin context msg_id thread_id n).options.method = "POST" ∧
    (speech token bin context msg_id thread_id n).options.url =
      "https://api.wit.ai/speech" ∧
    (speech token bin context msg_id thread_id n).options.body =
      ReqBody.buf bin ∧
    (speech token bin context msg_id thread_id n).options.qs =
      [("context", context), ("msg_id", msg_id), ("n", n)] ∧
    (speech token bin context msg_id thread_id n).options.qs =
      (speech token bin2 context msg_id thread_id n).options.qs ∧
    (stream token audio context msg_id thread_id n).options.method = "POST" ∧
    (stream token audio context msg_id thread_id n).options.url =
      "https://api.wit.ai/speech" ∧
    (stream token audio context msg_id thread_id n).options.body =
      ReqBody.stream audio ∧
    (stream token audio context msg_id thread_id n).options.qs =
      [("context", context), ("msg_id", msg_id), ("n", n)] ∧
    (stream token audio context msg_id thread_id n).options.qs =
      (stream token audio2 context msg_id thread_id n).options.qs :=
  ⟨rfl, rfl, rfl, rfl, rfl, rfl, rfl, rfl, rfl, rfl, rfl, rfl, rfl⟩

/-- C7: the request built by `stream` carries a `Transfer-encoding: chunked`
header, and the request built by `speech` carries no header named
`Transfer-encoding` at all. -/
theorem chunked_header_stream_only
    (token : String) (bin : List Nat) (audio : Nat)
    (context msg_id thread_id n : Json) :
    ("Transfer-encoding", "chunked") ∈
      (stream token audio context msg_id thread_id n).options.headers ∧
    "Transfer-encoding" ∉
      ((speech token bin context msg_id thread_id n).options.headers.map
        Prod.fst) := by
  constructor
  · simp [stream]
  · have hmap : (speech token bin context msg_id thread_id n).options.headers.map
        Prod.fst = ["Content-Type", "Authorization", "Accept"] := rfl
    rw [hmap]
    decide

/-- C8: for equal arguments, the request built by `stream` is identical to
the one built by `speech` — same URL, method and query parameters, and the
same headers once its extra `Transfer-encoding: chunked` header is removed —
except that its body is the readable byte source instead of the fixed
buffer; and the two operations install the very same response-handling
function. -/
theorem stream_refines_speech
    (token : String) (bin : List Nat) (audio : Nat)
    (context msg_id thread_id n : Json) :
    (stream token audio context msg_id thread_id n).options.url =
      (speech token bin context msg_id thread_id n).options.url ∧
    (stream token audio context msg_id thread_id n).options.method =
      (speech token bin context msg_id thread_id n).options.method ∧
    (stream token audio context msg_id thread_id n).options.qs =
      (speech token bin context msg_id thread_id n).options.qs ∧
    (stream token audio context msg_id thread_id n).options.headers.erase
        ("Transfer-encoding", "chunked") =
      (speech token bin context msg_id thread_id n).options.headers ∧
    ("Transfer-encoding", "chunked") ∈
      (stream token audio context msg_id thread_id n).options.headers ∧
    (speech token bin context msg_id thread_id n).options.body =
      ReqBody.buf bin ∧
    (stream token audio context msg_id thread_id n).options.body =
      ReqBody.stream audio ∧
    (stream token audio context msg_id thread_id n).handle =
      (speech token bin context msg_id thread_id n).handle := by
  refine ⟨rfl, rfl, rfl, ?_, ?_, rfl, rfl, rfl⟩
  · rfl
  · simp [stream]

/-- C9: `speech` and `stream` target POST `https://api.wit.ai/speech` with
headers `Content-Type: audio/wav`, `Authorization: Bearer` followed by the
credential, and `Accept: application/json` (`stream` adding the chunked
transfer header), with query parameters `context`, `msg_id` and `n`; `text`
targets GET `https://api.wit.ai/message` with the `Authorization` and
`Accept` headers. -/
theorem endpoints_and_headers
    (token : String) (bin : List Nat) (audio : Nat)
    (q context msg_id thread_id n verbose : Json) :
    (speech token bin context msg_id thread_id n).options.url =
      "https://api.wit.ai/speech" ∧
    (speech token bin context msg_id thread_id n).options.method = "POST" ∧
    (speech token bin context msg_id thread_id n).options.headers =
      [("Content-Type", "audio/wav"),
       ("Authorization", "Bearer " ++ token),
       ("Accept", "application/json")] ∧
    (speech token bin context msg_id thread_id n).options.qs =
      [("context", context), ("msg_id", msg_id), ("n", n)] ∧
    (stream token audio context msg_id thread_id n).options.url =
      "https://api.wit.ai/speech" ∧
    (stream token audio context msg_id thread_id n).options.method = "POST" ∧
    (stream token audio context msg_id thread_id n).options.headers =
      [("Content-Type", "audio/wav"),
       ("Transfer-encoding", "chunked"),
       ("Authorization", "Bearer " ++ token),
       ("Accept", "application/json")] ∧
    (stream token audio context msg_id thread_id n).options.qs =
      [("context", context), ("msg_id", msg_id), ("n", n)] ∧
    (text token q context msg_id thread_id n verbose).options.url =
      "https://api.wit.ai/message" ∧
    (text token q context msg_id thread_id n verbose).options.method = "GET" ∧
    (text token q context msg_id thread_id n verbose).options.headers =
      [("Authorization", "Bearer " ++ token),
       ("Accept", "application/json")] :=
  ⟨rfl, rfl, rfl, rfl, rfl, rfl, rfl, rfl, rfl, rfl, rfl⟩

/-- C10: two invocations of the same operation differing only in the
`thread_id` argument are indistinguishable — the constructed request options
and the installed handler are identical, so `thread_id` reaches no header,
query parameter or body. -/
theorem thread_id_has_no_influence
    (token : String) (bin : List Nat) (audio : Nat)
    (q context msg_id n verbose : Json) (thread_id thread_id2 : Json) :
    speech token bin context msg_id thread_id n =
      speech token bin context msg_id thread_id2 n ∧
    stream token audio context msg_id thread_id n =
      stream token audio context msg_id thread_id2 n ∧
    text token q context msg_id thread_id n verbose =
      text token q context msg_id thread_id2 n verbose :=
  ⟨rfl, rfl, rfl⟩

end WitAi
